import Mathlib

/-!
Shallow embedding of the rest_service payment core (src/app/api and
src/app/models, src/app/schemas).  Monetary values of SQL type
Numeric(12, 2) are modelled as integers counting cents; identifiers
(UUIDs) as naturals; timestamps as naturals.  The relational store is a
record of insertion-ordered tables.  Commits that may fail with a
SQLAlchemyError are driven by an explicit oracle: a list with one entry
per commit attempt, `none` meaning the commit succeeds and `some msg`
meaning it raises an error whose string form is `msg`.
-/

namespace RestService

/-- Transaction status strings of src/app/models/transaction.py line 28. -/
inductive TxStatus
  | Pending
  | Completed
  | Failed
deriving DecidableEq

/-- A row of the accounts table (src/app/models/account.py). -/
structure Account where
  id : Nat
  name : String
  email : String
  balance : Int
  is_agent : Bool
deriving DecidableEq

/-- A row of the transactions table (src/app/models/transaction.py). -/
structure Transaction where
  id : Nat
  from_account_id : Nat
  to_account_id : Nat
  amount : Int
  status : TxStatus
  description : Option String
  created_at : Nat
  completed_at : Option Nat
deriving DecidableEq

/-- A row of the payment_methods table (src/app/models/payment_method.py). -/
structure PaymentMethod where
  id : Nat
  account_id : Nat
  method_type : String
  token_id : String
deriving DecidableEq

/-- The committed database state: the three tables in insertion order. -/
structure DB where
  accounts : List Account
  transactions : List Transaction
  payment_methods : List PaymentMethod
deriving DecidableEq

/-- Outcome of an endpoint call: a value, or a raised HTTPException with a
status code and a detail string. -/
inductive ApiResult (α : Type)
  | ok (value : α)
  | httpError (code : Nat) (detail : String)
deriving DecidableEq

/-- Request body of POST /transactions/ (src/app/schemas/transaction.py). -/
structure TransactionCreate where
  amount : Int
  description : Option String
  from_account_id : Nat
  to_account_id : Nat
deriving DecidableEq

/-- Pydantic validation of TransactionCreate: amount has gt=0 and the
optional description has max_length=500
(src/app/schemas/transaction.py lines 14-15). -/
def TransactionCreate.schemaValid (r : TransactionCreate) : Bool :=
  decide (0 < r.amount) && decide ((r.description.getD "").length ≤ 500)

/-- db.query(Account).filter(Account.id == i).first(). -/
def findAccount (accounts : List Account) (i : Nat) : Option Account :=
  accounts.find? (fun a => a.id == i)

/-- Overwriting the balance attribute of the row with identifier i. -/
def setBalance (accounts : List Account) (i : Nat) (b : Int) : List Account :=
  accounts.map (fun a => if a.id = i then { a with balance := b } else a)

/-- The Transaction(...) constructor calls of create_transaction: created_at
defaults to utcnow and completed_at is set to utcnow at the same moment
(src/app/api/transactions.py lines 71-78, 95-102, 120-127). -/
def mkRecord (req : TransactionCreate) (st : TxStatus) (now newId : Nat) :
    Transaction :=
  { id := newId
    from_account_id := req.from_account_id
    to_account_id := req.to_account_id
    amount := req.amount
    status := st
    description := req.description
    created_at := now
    completed_at := some now }

/-- Result of one call to create_transaction: the committed database
afterwards, the response or raised exception, the account identifiers in
order of SELECT FOR UPDATE lock acquisition, and the unconsumed part of the
commit oracle. -/
structure EngineOutput where
  db : DB
  result : ApiResult Transaction
  locks : List Nat
  oracle : List (Option String)
deriving DecidableEq

/-- The except-SQLAlchemyError handler of create_transaction
(src/app/api/transactions.py lines 114-136): the session was rolled back,
so the committed state is the pre-call db; a best-effort Failed record is
committed inside a bare try/except whose failure is swallowed; the original
error string emsg is interpolated into the HTTP 500 detail. -/
def sqlalchemyErrorHandler (db : DB) (req : TransactionCreate)
    (now newId : Nat) (emsg : String) (locks : List Nat)
    (oracle : List (Option String)) : EngineOutput :=
  let failed := mkRecord req .Failed now newId
  match oracle.headD none with
  | none =>
      { db := { db with transactions := db.transactions ++ [failed] }
        result := .httpError 500
          ("Transaction failed due to database error: " ++ emsg)
        locks := locks
        oracle := oracle.tail }
  | some _ =>
      { db := db
        result := .httpError 500
          ("Transaction failed due to database error: " ++ emsg)
        locks := locks
        oracle := oracle.tail }

/-- POST /transactions/ handler body (src/app/api/transactions.py
lines 20-136), after pydantic validation.  Steps: reject self-transfer;
lock and fetch the source row, 404 if absent; lock and fetch the
destination row, 404 if absent; on insufficient balance commit a Failed
record and raise 400; otherwise debit, credit, insert a Completed record
and commit the three writes as one unit; a SQLAlchemyError from a commit
goes to sqlalchemyErrorHandler. -/
def create_transaction (db : DB) (req : TransactionCreate) (now newId : Nat)
    (oracle : List (Option String)) : EngineOutput :=
  if req.from_account_id == req.to_account_id then
    { db := db
      result := .httpError 400
        "Source and destination accounts must be different"
      locks := []
      oracle := oracle }
  else
    match findAccount db.accounts req.from_account_id with
    | none =>
        { db := db
          result := .httpError 404
            ("Source account " ++ toString req.from_account_id ++ " not found")
          locks := []
          oracle := oracle }
    | some from_account =>
        match findAccount db.accounts req.to_account_id with
        | none =>
            { db := db
              result := .httpError 404
                ("Destination account " ++ toString req.to_account_id ++
                  " not found")
              locks := [req.from_account_id]
              oracle := oracle }
        | some to_account =>
            if from_account.balance < req.amount then
              match oracle.headD none with
              | none =>
                  { db := { db with transactions :=
                      db.transactions ++ [mkRecord req .Failed now newId] }
                    result := .httpError 400
                      ("Insufficient balance. Available: " ++
                        toString from_account.balance ++ ", Required: " ++
                        toString req.amount)
                    locks := [req.from_account_id, req.to_account_id]
                    oracle := oracle.tail }
              | some emsg =>
                  sqlalchemyErrorHandler db req now (newId + 1) emsg
                    [req.from_account_id, req.to_account_id] oracle.tail
            else
              let accounts1 := setBalance db.accounts req.from_account_id
                (from_account.balance - req.amount)
              let accounts2 := setBalance accounts1 req.to_account_id
                (to_account.balance + req.amount)
              match oracle.headD none with
              | none =>
                  { db := { db with
                      accounts := accounts2
                      transactions :=
                        db.transactions ++ [mkRecord req .Completed now newId] }
                    result := .ok (mkRecord req .Completed now newId)
                    locks := [req.from_account_id, req.to_account_id]
                    oracle := oracle.tail }
              | some emsg =>
                  sqlalchemyErrorHandler db req now (newId + 1) emsg
                    [req.from_account_id, req.to_account_id] oracle.tail

/-- POST /transactions/ as exposed over HTTP: pydantic validates the
request body before the handler runs; an invalid body is rejected with 422
and the handler never executes. -/
def create_transaction_endpoint (db : DB) (req : TransactionCreate)
    (now newId : Nat) (oracle : List (Option String)) : EngineOutput :=
  if req.schemaValid then create_transaction db req now newId oracle
  else
    { db := db
      result := .httpError 422 "Request validation failed"
      locks := []
      oracle := oracle }

/-- Request body of POST /accounts/ (src/app/schemas/account.py). -/
structure AccountCreate where
  name : String
  email : String
  is_agent : Bool
  initial_balance : Int
deriving DecidableEq

/-- Pydantic validation of AccountCreate: name has min_length=1 and
max_length=255, initial_balance has ge=0
(src/app/schemas/account.py lines 14, 21). -/
def AccountCreate.schemaValid (a : AccountCreate) : Bool :=
  decide (1 ≤ a.name.length) && decide (a.name.length ≤ 255) &&
    decide (0 ≤ a.initial_balance)

/-- Request body of PATCH /accounts/id (src/app/schemas/account.py). -/
structure AccountUpdate where
  name : Option String
  email : Option String
deriving DecidableEq

/-- Pydantic validation of AccountUpdate: an optional name, when present,
has min_length=1 and max_length=255 (src/app/schemas/account.py line 26). -/
def AccountUpdate.schemaValid (a : AccountUpdate) : Bool :=
  match a.name with
  | none => true
  | some n => decide (1 ≤ n.length) && decide (n.length ≤ 255)

/-- POST /accounts/ handler (src/app/api/accounts.py lines 18-42): insert
the new row with balance = initial_balance; the unique email constraint
turns a duplicate into an IntegrityError, rolled back into a 400. -/
def create_account (db : DB) (data : AccountCreate) (newId : Nat) :
    DB × ApiResult Account :=
  if db.accounts.any (fun a => a.email == data.email) then
    (db, .httpError 400 "Account with this email already exists")
  else
    let acct : Account :=
      { id := newId
        name := data.name
        email := data.email
        balance := data.initial_balance
        is_agent := data.is_agent }
    ({ db with accounts := db.accounts ++ [acct] }, .ok acct)

/-- GET /accounts/id handler (src/app/api/accounts.py lines 45-57). -/
def get_account (db : DB) (aid : Nat) : ApiResult Account :=
  match findAccount db.accounts aid with
  | none =>
      .httpError 404 ("Account with ID " ++ toString aid ++ " not found")
  | some a => .ok a

/-- GET /accounts/ handler (src/app/api/accounts.py lines 60-66). -/
def list_accounts (db : DB) (skip limit : Nat) : List Account :=
  (db.accounts.drop skip).take limit

/-- PATCH /accounts/id handler (src/app/api/accounts.py lines 69-96):
only name and email are writable; balance is never touched; a duplicate
email raises IntegrityError, rolled back into a 400. -/
def update_account (db : DB) (aid : Nat) (data : AccountUpdate) :
    DB × ApiResult Account :=
  match findAccount db.accounts aid with
  | none =>
      (db, .httpError 404 ("Account with ID " ++ toString aid ++ " not found"))
  | some account =>
      let updated := { account with
        name := data.name.getD account.name
        email := data.email.getD account.email }
      if db.accounts.any (fun a => a.id != aid && a.email == updated.email) then
        (db, .httpError 400 "Email already exists")
      else
        ({ db with accounts :=
            db.accounts.map (fun a => if a.id == aid then updated else a) },
          .ok updated)

/-- GET /transactions/id handler (src/app/api/transactions.py
lines 139-150): a pure lookup. -/
def get_transaction (db : DB) (tid : Nat) : ApiResult Transaction :=
  match db.transactions.find? (fun t => t.id == tid) with
  | none =>
      .httpError 404 ("Transaction with ID " ++ toString tid ++ " not found")
  | some t => .ok t

/-- The filter of list_account_transactions: the account appears as the
sender or as the receiver (src/app/api/transactions.py line 167). -/
def touchesAccount (aid : Nat) (t : Transaction) : Bool :=
  t.from_account_id == aid || t.to_account_id == aid

/-- GET /transactions/account/id handler (src/app/api/transactions.py
lines 153-170): 404 when the account does not exist, else the offset/limit
window of the records touching the account, in store order. -/
def list_account_transactions (db : DB) (aid skip limit : Nat) :
    ApiResult (List Transaction) :=
  match findAccount db.accounts aid with
  | none =>
      .httpError 404 ("Account with ID " ++ toString aid ++ " not found")
  | some _ =>
      .ok (((db.transactions.filter (touchesAccount aid)).drop skip).take limit)

/-- Request body of POST /methods/ (src/app/schemas/payment_method.py). -/
structure PaymentMethodCreate where
  account_id : Nat
  method_type : String
  token_id : String
deriving DecidableEq

/-- POST /methods/ handler (src/app/api/payment_methods.py lines 19-51):
404 when the account does not exist; the unique token_id constraint turns
a duplicate into an IntegrityError, rolled back into a 400. -/
def create_payment_method (db : DB) (data : PaymentMethodCreate)
    (newId : Nat) : DB × ApiResult PaymentMethod :=
  match findAccount db.accounts data.account_id with
  | none =>
      (db, .httpError 404
        ("Account with ID " ++ toString data.account_id ++ " not found"))
  | some _ =>
      if db.payment_methods.any (fun m => m.token_id == data.token_id) then
        (db, .httpError 400 "Payment method with this token_id already exists")
      else
        let m : PaymentMethod :=
          { id := newId
            account_id := data.account_id
            method_type := data.method_type
            token_id := data.token_id }
        ({ db with payment_methods := db.payment_methods ++ [m] }, .ok m)

/-- One HTTP call to the service: every route of src/app/api. -/
inductive Op
  | createAccount (data : AccountCreate) (newId : Nat)
  | readAccount (aid : Nat)
  | listAccountsOp (skip limit : Nat)
  | updateAccountOp (aid : Nat) (data : AccountUpdate)
  | createTx (req : TransactionCreate) (now newId : Nat)
      (oracle : List (Option String))
  | readTx (tid : Nat)
  | listTxOp (aid skip limit : Nat)
  | createMethod (data : PaymentMethodCreate) (newId : Nat)
  | readMethod (mid : Nat)
  | listMethodsOp (aid : Nat)

/-- Effect of one HTTP call on the committed database.  Pydantic schema
validation runs before every handler; an invalid body is rejected with 422
and the handler never runs.  GET handlers never write. -/
def applyOp (db : DB) (op : Op) : DB :=
  match op with
  | .createAccount data newId =>
      if data.schemaValid then (create_account db data newId).1 else db
  | .readAccount _ => db
  | .listAccountsOp _ _ => db
  | .updateAccountOp aid data =>
      if data.schemaValid then (update_account db aid data).1 else db
  | .createTx req now newId oracle =>
      (create_transaction_endpoint db req now newId oracle).db
  | .readTx _ => db
  | .listTxOp _ _ _ => db
  | .createMethod data newId => (create_payment_method db data newId).1
  | .readMethod _ => db
  | .listMethodsOp _ => db

/-! Helper lemmas about the row lookup and the balance update. -/

theorem findAccount_id {l : List Account} {i : Nat} {a : Account}
    (h : findAccount l i = some a) : a.id = i := by
  have hp := List.find?_some h
  simpa using hp

theorem findAccount_mem {l : List Account} {i : Nat} {a : Account}
    (h : findAccount l i = some a) : a ∈ l :=
  List.mem_of_find?_eq_some h

theorem findAccount_setBalance_ne (l : List Account) {i j : Nat} (b : Int)
    (hij : i ≠ j) :
    findAccount (setBalance l i b) j = findAccount l j := by
  induction l with
  | nil => rfl
  | cons x xs ih =>
    show List.find? (fun a => a.id == j)
        ((if x.id = i then { x with balance := b } else x) :: setBalance xs i b)
      = List.find? (fun a => a.id == j) (x :: xs)
    by_cases hx : x.id = i
    · rw [if_pos hx]
      rw [List.find?_cons_of_neg _ (by simp [hx, hij]),
        List.find?_cons_of_neg _ (by simp [hx, hij])]
      exact ih
    · rw [if_neg hx]
      by_cases hxj : x.id = j
      · rw [List.find?_cons_of_pos _ (by simp [hxj]),
          List.find?_cons_of_pos _ (by simp [hxj])]
      · rw [List.find?_cons_of_neg _ (by simp [hxj]),
          List.find?_cons_of_neg _ (by simp [hxj])]
        exact ih

theorem findAccount_setBalance_self (l : List Account) (i : Nat) (b : Int)
    {a : Account} (h : findAccount l i = some a) :
    findAccount (setBalance l i b) i = some { a with balance := b } := by
  induction l with
  | nil => simp [findAccount] at h
  | cons x xs ih =>
    show List.find? (fun a => a.id == i)
        ((if x.id = i then { x with balance := b } else x) :: setBalance xs i b)
      = some { a with balance := b }
    by_cases hx : x.id = i
    · rw [findAccount, List.find?_cons_of_pos _ (by simp [hx])] at h
      cases h
      rw [if_pos hx, List.find?_cons_of_pos _ (by simp [hx])]
    · rw [findAccount, List.find?_cons_of_neg _ (by simp [hx])] at h
      rw [if_neg hx, List.find?_cons_of_neg _ (by simp [hx])]
      exact ih h

theorem mem_setBalance {l : List Account} {i : Nat} {b : Int} {a : Account}
    (h : a ∈ setBalance l i b) : a ∈ l ∨ a.balance = b := by
  rcases List.mem_map.mp h with ⟨x, hx, hxa⟩
  by_cases hxi : x.id = i
  · rw [if_pos hxi] at hxa
    right
    rw [← hxa]
  · rw [if_neg hxi] at hxa
    left
    exact hxa ▸ hx

/-! Facts about the SQLAlchemyError handler that hold whether or not the
best-effort Failed-record commit succeeds. -/

theorem sqlalchemyErrorHandler_locks (db : DB) (req : TransactionCreate)
    (now newId : Nat) (emsg : String) (locks : List Nat)
    (oracle : List (Option String)) :
    (sqlalchemyErrorHandler db req now newId emsg locks oracle).locks = locks := by
  unfold sqlalchemyErrorHandler
  cases oracle.headD none <;> rfl

theorem sqlalchemyErrorHandler_accounts (db : DB) (req : TransactionCreate)
    (now newId : Nat) (emsg : String) (locks : List Nat)
    (oracle : List (Option String)) :
    (sqlalchemyErrorHandler db req now newId emsg locks oracle).db.accounts =
      db.accounts := by
  unfold sqlalchemyErrorHandler
  cases oracle.headD none <;> rfl

theorem sqlalchemyErrorHandler_result (db : DB) (req : TransactionCreate)
    (now newId : Nat) (emsg : String) (locks : List Nat)
    (oracle : List (Option String)) :
    (sqlalchemyErrorHandler db req now newId emsg locks oracle).result =
      .httpError 500 ("Transaction failed due to database error: " ++ emsg) := by
  unfold sqlalchemyErrorHandler
  cases oracle.headD none <;> rfl

theorem sqlalchemyErrorHandler_transactions (db : DB) (req : TransactionCreate)
    (now newId : Nat) (emsg : String) (locks : List Nat)
    (oracle : List (Option String)) :
    (sqlalchemyErrorHandler db req now newId emsg locks oracle).db.transactions
        = db.transactions ++ [mkRecord req .Failed now newId] ∨
      (sqlalchemyErrorHandler db req now newId emsg locks oracle).db.transactions
        = db.transactions := by
  unfold sqlalchemyErrorHandler
  cases oracle.headD none
  · exact Or.inl rfl
  · exact Or.inr rfl

/-! Concrete fixtures used by the witnesses and counterexamples.  Account 1
holds 100.00 (10000 cents), account 2 holds 0.00. -/

/-- Witness account with identifier 1 and balance 100.00. -/
def acctW1 : Account :=
  { id := 1
    name := "Alice"
    email := "alice@example.com"
    balance := 10000
    is_agent := false }

/-- Witness account with identifier 2 and balance 0.00. -/
def acctW2 : Account :=
  { id := 2
    name := "Bob"
    email := "bob@example.com"
    balance := 0
    is_agent := true }

/-- Witness database holding the two accounts and no records. -/
def dbW : DB :=
  { accounts := [acctW1, acctW2]
    transactions := []
    payment_methods := [] }

/-- Witness request: transfer 40.00 from account 1 to account 2. -/
def reqW : TransactionCreate :=
  { amount := 4000
    description := some "groceries"
    from_account_id := 1
    to_account_id := 2 }

/-- Witness request over the same pair in the opposite direction. -/
def reqW21 : TransactionCreate :=
  { amount := 4000
    description := none
    from_account_id := 2
    to_account_id := 1 }

/-- C1: for a transfer between distinct existing accounts with
from_account.balance at least the amount, create_transaction debits the
source by exactly the amount, credits the destination by exactly the
amount, leaves the sum of the two balances unchanged, appends a single
TransferRecord with status Completed and completed_at set, returns it, and
consumes exactly one commit of the oracle: the whole change is one atomic
unit. -/
theorem C1_completed_transfer_moves_amount
    (db : DB) (req : TransactionCreate) (now newId : Nat)
    (rest : List (Option String)) (fa ta : Account)
    (hne : req.from_account_id ≠ req.to_account_id)
    (hfa : findAccount db.accounts req.from_account_id = some fa)
    (hta : findAccount db.accounts req.to_account_id = some ta)
    (hbal : req.amount ≤ fa.balance) :
    ∃ fa' ta',
      findAccount (create_transaction db req now newId (none :: rest)).db.accounts
          req.from_account_id = some fa' ∧
      findAccount (create_transaction db req now newId (none :: rest)).db.accounts
          req.to_account_id = some ta' ∧
      fa'.balance = fa.balance - req.amount ∧
      ta'.balance = ta.balance + req.amount ∧
      fa'.balance + ta'.balance = fa.balance + ta.balance ∧
      (create_transaction db req now newId (none :: rest)).db.transactions
        = db.transactions ++ [mkRecord req .Completed now newId] ∧
      (mkRecord req .Completed now newId).status = .Completed ∧
      (mkRecord req .Completed now newId).completed_at = some now ∧
      (create_transaction db req now newId (none :: rest)).result
        = .ok (mkRecord req .Completed now newId) ∧
      (create_transaction db req now newId (none :: rest)).oracle = rest := by
  have hbeq : (req.from_account_id == req.to_account_id) = false :=
    beq_eq_false_iff_ne.mpr hne
  have hnl : ¬ fa.balance < req.amount := not_lt.mpr hbal
  refine ⟨{ fa with balance := fa.balance - req.amount },
          { ta with balance := ta.balance + req.amount },
          ?_, ?_, rfl, rfl, by ring, ?_, rfl, rfl, ?_, ?_⟩ <;>
    simp only [create_transaction, hbeq, Bool.false_eq_true, if_false, hfa, hta,
      List.headD_cons, List.tail_cons, if_neg hnl]
  · rw [findAccount_setBalance_ne _ _ (Ne.symm hne)]
    exact findAccount_setBalance_self _ _ _ hfa
  · have h1 : findAccount
        (setBalance db.accounts req.from_account_id (fa.balance - req.amount))
        req.to_account_id = some ta := by
      rw [findAccount_setBalance_ne _ _ hne]
      exact hta
    exact findAccount_setBalance_self _ _ _ h1

/-- C1 witness: transferring 40.00 from account 1 (balance 100.00) to
account 2 (balance 0.00) yields balances 60.00 and 40.00 and a Completed
record. -/
theorem C1_completed_transfer_moves_amount_witness :
    reqW.from_account_id ≠ reqW.to_account_id ∧
    reqW.amount ≤ acctW1.balance ∧
    (∃ fa' ta',
      findAccount (create_transaction dbW reqW 5 7 [none]).db.accounts
          reqW.from_account_id = some fa' ∧
      findAccount (create_transaction dbW reqW 5 7 [none]).db.accounts
          reqW.to_account_id = some ta' ∧
      fa'.balance = acctW1.balance - reqW.amount ∧
      ta'.balance = acctW2.balance + reqW.amount ∧
      fa'.balance + ta'.balance = acctW1.balance + acctW2.balance ∧
      (create_transaction dbW reqW 5 7 [none]).db.transactions
        = dbW.transactions ++ [mkRecord reqW .Completed 5 7] ∧
      (mkRecord reqW .Completed 5 7).status = .Completed ∧
      (mkRecord reqW .Completed 5 7).completed_at = some 5 ∧
      (create_transaction dbW reqW 5 7 [none]).result
        = .ok (mkRecord reqW .Completed 5 7) ∧
      (create_transaction dbW reqW 5 7 [none]).oracle = []) :=
  ⟨by decide, by decide,
    C1_completed_transfer_moves_amount dbW reqW 5 7 [] acctW1 acctW2
      (by decide) rfl rfl (by decide)⟩

/-- C2 counterexample: the engine locks the source row first and the
destination row second, so two transfers over the same pair of accounts in
opposite directions acquire the two locks in opposite orders; the lock
order is not a fixed, globally consistent order such as ascending
identifier order. -/
theorem C2_lock_order_counterexample :
    (create_transaction dbW reqW 5 7 [none]).locks = [1, 2] ∧
    (create_transaction dbW reqW21 5 7 [none]).locks = [2, 1] ∧
    (create_transaction dbW reqW 5 7 [none]).locks ≠
      (create_transaction dbW reqW21 5 7 [none]).locks := by
  decide

/-- C2 amended: for every transfer between distinct existing accounts, the
two row locks are acquired in request order — the source account first and
the destination account second — regardless of how the two identifiers
compare, and both locks are acquired before any balance check, mutation or
commit. -/
theorem C2_locks_follow_request_order
    (db : DB) (req : TransactionCreate) (now newId : Nat)
    (oracle : List (Option String)) (fa ta : Account)
    (hne : req.from_account_id ≠ req.to_account_id)
    (hfa : findAccount db.accounts req.from_account_id = some fa)
    (hta : findAccount db.accounts req.to_account_id = some ta) :
    (create_transaction db req now newId oracle).locks =
      [req.from_account_id, req.to_account_id] := by
  have hbeq : (req.from_account_id == req.to_account_id) = false :=
    beq_eq_false_iff_ne.mpr hne
  simp only [create_transaction, hbeq, Bool.false_eq_true, if_false, hfa, hta]
  by_cases hb : fa.balance < req.amount
  · rw [if_pos hb]
    cases hoc : oracle.headD none
    · rfl
    · exact sqlalchemyErrorHandler_locks ..
  · rw [if_neg hb]
    cases hoc : oracle.headD none
    · rfl
    · exact sqlalchemyErrorHandler_locks ..

/-- C2 witness: the transfer from account 2 to account 1 locks row 2 first
and row 1 second. -/
theorem C2_locks_follow_request_order_witness :
    reqW21.from_account_id ≠ reqW21.to_account_id ∧
    (create_transaction dbW reqW21 5 7 [none]).locks =
      [reqW21.from_account_id, reqW21.to_account_id] :=
  ⟨by decide,
    C2_locks_follow_request_order dbW reqW21 5 7 [none] acctW2 acctW1
      (by decide) rfl rfl⟩

/-- C5: a self-transfer is rejected with HTTP 400 before any lock is
acquired and before any commit: the database is unchanged, no record is
created, and the oracle is untouched. -/
theorem C5_self_transfer_rejected_before_locking
    (db : DB) (req : TransactionCreate) (now newId : Nat)
    (oracle : List (Option String))
    (h : req.from_account_id = req.to_account_id) :
    (create_transaction db req now newId oracle).db = db ∧
    (create_transaction db req now newId oracle).locks = [] ∧
    (create_transaction db req now newId oracle).oracle = oracle ∧
    (create_transaction db req now newId oracle).result =
      .httpError 400 "Source and destination accounts must be different" := by
  refine ⟨?_, ?_, ?_, ?_⟩ <;> simp [create_transaction, h]

/-- C5 witness: a transfer from account 1 to itself is rejected with the
400 detail and leaves the witness database unchanged. -/
theorem C5_self_transfer_rejected_before_locking_witness :
    ({ reqW with to_account_id := 1 } : TransactionCreate).from_account_id =
      ({ reqW with to_account_id := 1 } : TransactionCreate).to_account_id ∧
    (create_transaction dbW { reqW with to_account_id := 1 } 5 7 [none]).db
      = dbW ∧
    (create_transaction dbW { reqW with to_account_id := 1 } 5 7 [none]).locks
      = [] ∧
    (create_transaction dbW { reqW with to_account_id := 1 } 5 7 [none]).oracle
      = [none] ∧
    (create_transaction dbW { reqW with to_account_id := 1 } 5 7 [none]).result
      = .httpError 400 "Source and destination accounts must be different" :=
  ⟨rfl, C5_self_transfer_rejected_before_locking dbW
    { reqW with to_account_id := 1 } 5 7 [none] rfl⟩

/-- Witness request that exceeds the source balance: 200.00 from
account 1, which holds 100.00. -/
def reqWBig : TransactionCreate :=
  { amount := 20000
    description := some "too much"
    from_account_id := 1
    to_account_id := 2 }

/-- Witness request with a non-positive amount. -/
def reqWNeg : TransactionCreate :=
  { amount := -500
    description := none
    from_account_id := 1
    to_account_id := 2 }

/-- C3: for a transfer between distinct existing accounts with
from_account.balance below the amount, no balance changes, a Failed record
carrying the requested amount, description, both account references and a
completed_at timestamp is committed, and the InsufficientBalance error is
reported only after that commit. -/
theorem C3_insufficient_balance_recorded
    (db : DB) (req : TransactionCreate) (now newId : Nat)
    (rest : List (Option String)) (fa ta : Account)
    (hne : req.from_account_id ≠ req.to_account_id)
    (hfa : findAccount db.accounts req.from_account_id = some fa)
    (hta : findAccount db.accounts req.to_account_id = some ta)
    (hbal : fa.balance < req.amount) :
    (create_transaction db req now newId (none :: rest)).db.accounts
      = db.accounts ∧
    (create_transaction db req now newId (none :: rest)).db.transactions
      = db.transactions ++ [mkRecord req .Failed now newId] ∧
    (mkRecord req .Failed now newId).status = .Failed ∧
    (mkRecord req .Failed now newId).completed_at = some now ∧
    (mkRecord req .Failed now newId).amount = req.amount ∧
    (mkRecord req .Failed now newId).description = req.description ∧
    (mkRecord req .Failed now newId).from_account_id = req.from_account_id ∧
    (mkRecord req .Failed now newId).to_account_id = req.to_account_id ∧
    (create_transaction db req now newId (none :: rest)).result
      = .httpError 400 ("Insufficient balance. Available: " ++
          toString fa.balance ++ ", Required: " ++ toString req.amount) := by
  have hbeq : (req.from_account_id == req.to_account_id) = false :=
    beq_eq_false_iff_ne.mpr hne
  refine ⟨?_, ?_, rfl, rfl, rfl, rfl, rfl, rfl, ?_⟩ <;>
    simp only [create_transaction, hbeq, Bool.false_eq_true, if_false, hfa,
      hta, List.headD_cons, List.tail_cons, if_pos hbal]

/-- C3 witness: requesting 200.00 from account 1, which holds 100.00,
leaves both balances unchanged and commits a Failed record before the 400
response. -/
theorem C3_insufficient_balance_recorded_witness :
    acctW1.balance < reqWBig.amount ∧
    (create_transaction dbW reqWBig 5 7 [none]).db.accounts = dbW.accounts ∧
    (create_transaction dbW reqWBig 5 7 [none]).db.transactions
      = dbW.transactions ++ [mkRecord reqWBig .Failed 5 7] ∧
    (mkRecord reqWBig .Failed 5 7).status = .Failed ∧
    (mkRecord reqWBig .Failed 5 7).completed_at = some 5 ∧
    (mkRecord reqWBig .Failed 5 7).amount = reqWBig.amount ∧
    (mkRecord reqWBig .Failed 5 7).description = reqWBig.description ∧
    (mkRecord reqWBig .Failed 5 7).from_account_id = reqWBig.from_account_id ∧
    (mkRecord reqWBig .Failed 5 7).to_account_id = reqWBig.to_account_id ∧
    (create_transaction dbW reqWBig 5 7 [none]).result
      = .httpError 400 ("Insufficient balance. Available: " ++
          toString acctW1.balance ++ ", Required: " ++ toString reqWBig.amount) :=
  ⟨by decide,
    C3_insufficient_balance_recorded dbW reqWBig 5 7 [] acctW1 acctW2
      (by decide) rfl rfl (by decide)⟩

/-- C6 counterexample: called directly with the non-positive amount -5.00
between the distinct existing accounts 1 and 2, the engine does not reject
the request: it executes the transfer, returns a Completed record, drives
the balance of account 2 to -5.00, and mutates the database. -/
theorem C6_engine_accepts_nonpositive_counterexample :
    reqWNeg.amount ≤ 0 ∧
    (create_transaction dbW reqWNeg 5 7 [none]).result
      = .ok (mkRecord reqWNeg .Completed 5 7) ∧
    findAccount (create_transaction dbW reqWNeg 5 7 [none]).db.accounts 2
      = some { acctW2 with balance := -500 } ∧
    (create_transaction dbW reqWNeg 5 7 [none]).db.transactions ≠ [] ∧
    (create_transaction dbW reqWNeg 5 7 [none]).db ≠ dbW := by
  decide

/-- C6 amended: a non-positive amount is rejected only by the caller-facing
pydantic schema (amount gt=0), before the handler runs: the endpoint
returns a 422 with no record written, no lock taken and no balance change,
while the engine body itself contains no amount check. -/
theorem C6_schema_rejects_nonpositive_amount
    (db : DB) (req : TransactionCreate) (now newId : Nat)
    (oracle : List (Option String)) (h : req.amount ≤ 0) :
    (create_transaction_endpoint db req now newId oracle).db = db ∧
    (create_transaction_endpoint db req now newId oracle).locks = [] ∧
    (create_transaction_endpoint db req now newId oracle).oracle = oracle ∧
    (create_transaction_endpoint db req now newId oracle).result =
      .httpError 422 "Request validation failed" := by
  have hv : req.schemaValid = false := by
    unfold TransactionCreate.schemaValid
    rw [decide_eq_false (not_lt.mpr h)]
    rfl
  refine ⟨?_, ?_, ?_, ?_⟩ <;>
    simp only [create_transaction_endpoint, hv, Bool.false_eq_true, if_false]

/-- C6 amended witness: the endpoint rejects the -5.00 request with a 422
and an unchanged database. -/
theorem C6_schema_rejects_nonpositive_amount_witness :
    reqWNeg.amount ≤ 0 ∧
    (create_transaction_endpoint dbW reqWNeg 5 7 [none]).db = dbW ∧
    (create_transaction_endpoint dbW reqWNeg 5 7 [none]).locks = [] ∧
    (create_transaction_endpoint dbW reqWNeg 5 7 [none]).oracle = [none] ∧
    (create_transaction_endpoint dbW reqWNeg 5 7 [none]).result =
      .httpError 422 "Request validation failed" :=
  ⟨by decide,
    C6_schema_rejects_nonpositive_amount dbW reqWNeg 5 7 [none] (by decide)⟩

/-- C7 counterexample: the detail string surfaced on a storage failure is
not a generic description — it interpolates the internal error text, so two
different internal errors produce two different caller-visible responses. -/
theorem C7_error_detail_not_generic_counterexample :
    (create_transaction dbW reqW 5 7 [some "connection reset", none]).result
      = .httpError 500
          "Transaction failed due to database error: connection reset" ∧
    (create_transaction dbW reqW 5 7 [some "disk full", none]).result
      = .httpError 500 "Transaction failed due to database error: disk full" ∧
    (create_transaction dbW reqW 5 7 [some "connection reset", none]).result
      ≠ (create_transaction dbW reqW 5 7 [some "disk full", none]).result := by
  decide

/-- C7 amended: when the atomic unit of a sufficient transfer fails to
commit, the balance mutations are rolled back, a best-effort standalone
Failed record commit is attempted, and the 500 error reported to the
caller is the same whether or not that best-effort commit succeeds — the
best-effort failure never masks it — but the surfaced detail embeds the
internal database error string rather than a generic description. -/
theorem C7_storage_failure_rolls_back
    (db : DB) (req : TransactionCreate) (now newId : Nat) (emsg : String)
    (rest : List (Option String)) (fa ta : Account)
    (hne : req.from_account_id ≠ req.to_account_id)
    (hfa : findAccount db.accounts req.from_account_id = some fa)
    (hta : findAccount db.accounts req.to_account_id = some ta)
    (hbal : req.amount ≤ fa.balance) :
    (create_transaction db req now newId (some emsg :: rest)).db.accounts
      = db.accounts ∧
    (create_transaction db req now newId (some emsg :: rest)).result
      = .httpError 500 ("Transaction failed due to database error: " ++ emsg) ∧
    ((create_transaction db req now newId (some emsg :: rest)).db.transactions
        = db.transactions ++ [mkRecord req .Failed now (newId + 1)] ∨
      (create_transaction db req now newId (some emsg :: rest)).db.transactions
        = db.transactions) := by
  have hbeq : (req.from_account_id == req.to_account_id) = false :=
    beq_eq_false_iff_ne.mpr hne
  have hnl : ¬ fa.balance < req.amount := not_lt.mpr hbal
  refine ⟨?_, ?_, ?_⟩ <;>
    simp only [create_transaction, hbeq, Bool.false_eq_true, if_false, hfa,
      hta, List.headD_cons, List.tail_cons, if_neg hnl]
  · exact sqlalchemyErrorHandler_accounts ..
  · exact sqlalchemyErrorHandler_result ..
  · exact sqlalchemyErrorHandler_transactions ..

/-- C7 amended witness: a commit failure whose best-effort Failed write
also fails still reports the original 500 error and leaves the witness
database unchanged. -/
theorem C7_storage_failure_rolls_back_witness :
    reqW.amount ≤ acctW1.balance ∧
    (create_transaction dbW reqW 5 7 [some "boom", some "boom2"]).db.accounts
      = dbW.accounts ∧
    (create_transaction dbW reqW 5 7 [some "boom", some "boom2"]).result
      = .httpError 500 ("Transaction failed due to database error: " ++ "boom") ∧
    ((create_transaction dbW reqW 5 7 [some "boom", some "boom2"]).db.transactions
        = dbW.transactions ++ [mkRecord reqW .Failed 5 (7 + 1)] ∨
      (create_transaction dbW reqW 5 7 [some "boom", some "boom2"]).db.transactions
        = dbW.transactions) :=
  ⟨by decide,
    C7_storage_failure_rolls_back dbW reqW 5 7 "boom" [some "boom2"]
      acctW1 acctW2 (by decide) rfl rfl (by decide)⟩

/-- POST /methods/ never touches the accounts table. -/
theorem create_payment_method_accounts (db : DB) (data : PaymentMethodCreate)
    (newId : Nat) :
    (create_payment_method db data newId).1.accounts = db.accounts := by
  unfold create_payment_method
  split
  · rfl
  · split <;> rfl

/-- On every path of create_transaction, a positive amount keeps every
balance non-negative: the debit happens only after the sufficiency check
and the credit adds a positive amount. -/
theorem create_transaction_balances_nonneg
    (db : DB) (req : TransactionCreate) (now newId : Nat)
    (oracle : List (Option String))
    (hamt : 0 < req.amount)
    (hinv : ∀ a ∈ db.accounts, 0 ≤ a.balance) :
    ∀ a ∈ (create_transaction db req now newId oracle).db.accounts,
      0 ≤ a.balance := by
  intro a ha
  simp only [create_transaction] at ha
  split at ha
  · exact hinv a ha
  · split at ha
    · exact hinv a ha
    · rename_i from_account hfa
      split at ha
      · exact hinv a ha
      · rename_i to_account hta
        split at ha
        · split at ha
          · exact hinv a ha
          · rw [sqlalchemyErrorHandler_accounts] at ha
            exact hinv a ha
        · rename_i hnl
          split at ha
          · rcases mem_setBalance ha with h1 | h2
            · rcases mem_setBalance h1 with h0 | hd
              · exact hinv a h0
              · rw [hd]
                exact sub_nonneg.mpr (not_lt.mp hnl)
            · rw [h2]
              exact add_nonneg (hinv to_account (findAccount_mem hta)) hamt.le
          · rw [sqlalchemyErrorHandler_accounts] at ha
            exact hinv a ha

/-- C4: non-negativity of every account balance is preserved by every
public operation of the service: account creation admits only a
non-negative initial balance (schema ge=0), a transfer debits only after
the sufficiency check, and no other operation mutates a balance. -/
theorem C4_nonnegative_balances_preserved (db : DB) (op : Op)
    (hinv : ∀ a ∈ db.accounts, 0 ≤ a.balance) :
    ∀ a ∈ (applyOp db op).accounts, 0 ≤ a.balance := by
  cases op with
  | createAccount data newId =>
      by_cases hv : data.schemaValid = true
      · intro a ha
        simp only [applyOp, hv, if_true, create_account] at ha
        split at ha
        · exact hinv a ha
        · rcases List.mem_append.mp ha with h1 | h2
          · exact hinv a h1
          · have h3 : a =
                { id := newId, name := data.name, email := data.email,
                  balance := data.initial_balance,
                  is_agent := data.is_agent } := by
              simpa using h2
            rw [h3]
            simp only [AccountCreate.schemaValid, Bool.and_eq_true,
              decide_eq_true_eq] at hv
            exact hv.2
      · intro a ha
        simp only [applyOp, if_neg hv] at ha
        exact hinv a ha
  | readAccount aid => exact hinv
  | listAccountsOp skip limit => exact hinv
  | updateAccountOp aid data =>
      by_cases hv : data.schemaValid = true
      · intro a ha
        simp only [applyOp, hv, if_true, update_account] at ha
        split at ha
        · exact hinv a ha
        · rename_i account hacc
          split at ha
          · exact hinv a ha
          · rcases List.mem_map.mp ha with ⟨x, hx, hxa⟩
            by_cases hxi : (x.id == aid) = true
            · rw [if_pos hxi] at hxa
              rw [← hxa]
              exact hinv account (findAccount_mem hacc)
            · rw [if_neg hxi] at hxa
              rw [← hxa]
              exact hinv x hx
      · intro a ha
        simp only [applyOp, if_neg hv] at ha
        exact hinv a ha
  | createTx req now newId oracle =>
      simp only [applyOp, create_transaction_endpoint]
      by_cases hv : req.schemaValid = true
      · rw [if_pos hv]
        have hamt : 0 < req.amount := by
          simp only [TransactionCreate.schemaValid, Bool.and_eq_true,
            decide_eq_true_eq] at hv
          exact hv.1
        exact create_transaction_balances_nonneg db req now newId oracle hamt hinv
      · rw [if_neg hv]
        exact hinv
  | readTx tid => exact hinv
  | listTxOp aid skip limit => exact hinv
  | createMethod data newId =>
      intro a ha
      rw [show applyOp db (.createMethod data newId)
          = (create_payment_method db data newId).1 from rfl] at ha
      rw [create_payment_method_accounts] at ha
      exact hinv a ha
  | readMethod mid => exact hinv
  | listMethodsOp aid => exact hinv

/-- C4 witness: the witness database satisfies the invariant and still
does after executing the 40.00 transfer through the endpoint. -/
theorem C4_nonnegative_balances_preserved_witness :
    (∀ a ∈ dbW.accounts, 0 ≤ a.balance) ∧
    (∀ a ∈ (applyOp dbW (.createTx reqW 5 7 [none])).accounts,
      0 ≤ a.balance) :=
  ⟨by decide,
    C4_nonnegative_balances_preserved dbW (.createTx reqW 5 7 [none])
      (by decide)⟩

/-- Every path of create_transaction only ever appends transaction
records; it never rewrites an existing row of the transactions table. -/
theorem create_transaction_transactions_extend
    (db : DB) (req : TransactionCreate) (now newId : Nat)
    (oracle : List (Option String)) :
    ∃ appended, (create_transaction db req now newId oracle).db.transactions
      = db.transactions ++ appended := by
  simp only [create_transaction]
  split
  · exact ⟨[], by simp⟩
  · split
    · exact ⟨[], by simp⟩
    · split
      · exact ⟨[], by simp⟩
      · split
        · split
          · exact ⟨[mkRecord req .Failed now newId], rfl⟩
          · rename_i emsg heq
            rcases sqlalchemyErrorHandler_transactions db req now (newId + 1)
                emsg [req.from_account_id, req.to_account_id] oracle.tail
              with h | h
            · exact ⟨[mkRecord req .Failed now (newId + 1)], h⟩
            · exact ⟨[], by rw [h]; simp⟩
        · split
          · exact ⟨[mkRecord req .Completed now newId], rfl⟩
          · rename_i emsg heq
            rcases sqlalchemyErrorHandler_transactions db req now (newId + 1)
                emsg [req.from_account_id, req.to_account_id] oracle.tail
              with h | h
            · exact ⟨[mkRecord req .Failed now (newId + 1)], h⟩
            · exact ⟨[], by rw [h]; simp⟩

/-- C8: the transfer-record store is append-only under every public
operation: whatever the operation, the transactions table afterwards is
the old table with zero or more new records appended, so no field —
status included — of an already persisted record ever changes, and the
read-only queries get_transaction and list_account_transactions mutate
nothing. -/
theorem C8_records_append_only (db : DB) (op : Op) :
    ∃ appended, (applyOp db op).transactions = db.transactions ++ appended := by
  cases op with
  | createAccount data newId =>
      simp only [applyOp]
      split
      · simp only [create_account]
        split
        · exact ⟨[], by simp⟩
        · exact ⟨[], by simp⟩
      · exact ⟨[], by simp⟩
  | readAccount aid => exact ⟨[], by simp [applyOp]⟩
  | listAccountsOp skip limit => exact ⟨[], by simp [applyOp]⟩
  | updateAccountOp aid data =>
      simp only [applyOp]
      split
      · simp only [update_account]
        split
        · exact ⟨[], by simp⟩
        · split
          · exact ⟨[], by simp⟩
          · exact ⟨[], by simp⟩
      · exact ⟨[], by simp⟩
  | createTx req now newId oracle =>
      simp only [applyOp, create_transaction_endpoint]
      split
      · exact create_transaction_transactions_extend db req now newId oracle
      · exact ⟨[], by simp⟩
  | readTx tid => exact ⟨[], by simp [applyOp]⟩
  | listTxOp aid skip limit => exact ⟨[], by simp [applyOp]⟩
  | createMethod data newId =>
      simp only [applyOp, create_payment_method]
      split
      · exact ⟨[], by simp⟩
      · split
        · exact ⟨[], by simp⟩
        · exact ⟨[], by simp⟩
  | readMethod mid => exact ⟨[], by simp [applyOp]⟩
  | listMethodsOp aid => exact ⟨[], by simp [applyOp]⟩

/-- The SELECT of list_account_transactions as the SQL backend executes it
(src/app/api/transactions.py lines 166-168): the query has no order_by, so
the backend enumerates the stored rows in an order of its own choosing —
any permutation of the table — and only then applies the WHERE filter, the
OFFSET and the LIMIT.  The deterministic endpoint model
list_account_transactions is the special case rows = db.transactions. -/
def list_account_transactions_backend (rows : List Transaction)
    (aid skip limit : Nat) : List Transaction :=
  ((rows.filter (touchesAccount aid)).drop skip).take limit

/-- Witness records: account 1 sent 40.00 to account 2, then account 2
sent 10.00 back to account 1. -/
def txW1 : Transaction :=
  { id := 7
    from_account_id := 1
    to_account_id := 2
    amount := 4000
    status := .Completed
    description := some "groceries"
    created_at := 5
    completed_at := some 5 }

/-- Second witness record, created later than txW1. -/
def txW2 : Transaction :=
  { id := 8
    from_account_id := 2
    to_account_id := 1
    amount := 1000
    status := .Failed
    description := none
    created_at := 9
    completed_at := some 9 }

/-- Witness database with two persisted transfer records. -/
def dbW2 : DB :=
  { accounts := [acctW1, acctW2]
    transactions := [txW1, txW2]
    payment_methods := [] }

/-- C9 counterexample: both stored records touch account 1, and the
backend may enumerate the table as [txW2, txW1] — a permutation of the
stored rows — since the query has no order_by.  Under that legitimate
enumeration the returned list is not in chronological order (created_at 9
precedes created_at 5), and with skip 1 and limit 1 the offset/limit
window itself differs from the insertion-order window, so neither the
claimed chronological order nor the claimed pagination is guaranteed by
the query. -/
theorem C9_unordered_query_counterexample :
    List.Perm [txW2, txW1] dbW2.transactions ∧
    list_account_transactions_backend [txW2, txW1] 1 0 100 = [txW2, txW1] ∧
    ¬ List.Pairwise (fun t u => t.created_at ≤ u.created_at)
        (list_account_transactions_backend [txW2, txW1] 1 0 100) ∧
    list_account_transactions_backend [txW2, txW1] 1 1 1 ≠
      list_account_transactions_backend dbW2.transactions 1 1 1 := by
  refine ⟨List.Perm.swap txW1 txW2 [], by decide, ?_, by decide⟩
  decide

/-- C9 amended: for an existing account, list_account_transactions returns
the offset/limit window of the records touching the account taken in some
backend enumeration of the table — a permutation of the stored rows that
the order_by-free query leaves unspecified.  For every such enumeration:
every returned record references the account on one side, every returned
record is a stored record, at most limit records are returned, and no
record is mutated; the result is chronological only when the chosen
enumeration itself is. -/
theorem C9_list_window_per_enumeration
    (db : DB) (rows : List Transaction) (aid skip limit : Nat)
    (acct : Account)
    (ha : findAccount db.accounts aid = some acct)
    (hperm : List.Perm rows db.transactions) :
    list_account_transactions db aid skip limit =
      .ok (list_account_transactions_backend db.transactions aid skip limit) ∧
    (∀ t ∈ list_account_transactions_backend rows aid skip limit,
      touchesAccount aid t = true) ∧
    (∀ t ∈ list_account_transactions_backend rows aid skip limit,
      t ∈ db.transactions) ∧
    (list_account_transactions_backend rows aid skip limit).length ≤ limit ∧
    applyOp db (.listTxOp aid skip limit) = db ∧
    (List.Pairwise (fun t u => t.created_at ≤ u.created_at) rows →
      List.Pairwise (fun t u => t.created_at ≤ u.created_at)
        (list_account_transactions_backend rows aid skip limit)) := by
  refine ⟨?_, ?_, ?_, ?_, rfl, ?_⟩
  · simp only [list_account_transactions, ha]
    rfl
  · intro t ht
    have h1 : t ∈ rows.filter (touchesAccount aid) :=
      ((List.take_sublist _ _).trans (List.drop_sublist _ _)).subset ht
    exact List.of_mem_filter h1
  · intro t ht
    have h1 : t ∈ rows.filter (touchesAccount aid) :=
      ((List.take_sublist _ _).trans (List.drop_sublist _ _)).subset ht
    exact hperm.subset ((List.filter_sublist _).subset h1)
  · exact List.length_take_le _ _
  · intro hp
    exact List.Pairwise.sublist
      (((List.take_sublist _ _).trans (List.drop_sublist _ _)).trans
        (List.filter_sublist _)) hp

/-- C9 amended witness: listing account 1 of dbW2 under the reversed
backend enumeration returns only stored records touching account 1, at
most the limit of them, and mutates nothing. -/
theorem C9_list_window_per_enumeration_witness :
    findAccount dbW2.accounts 1 = some acctW1 ∧
    List.Perm [txW2, txW1] dbW2.transactions ∧
    (list_account_transactions dbW2 1 0 100 =
      .ok (list_account_transactions_backend dbW2.transactions 1 0 100) ∧
    (∀ t ∈ list_account_transactions_backend [txW2, txW1] 1 0 100,
      touchesAccount 1 t = true) ∧
    (∀ t ∈ list_account_transactions_backend [txW2, txW1] 1 0 100,
      t ∈ dbW2.transactions) ∧
    (list_account_transactions_backend [txW2, txW1] 1 0 100).length ≤ 100 ∧
    applyOp dbW2 (.listTxOp 1 0 100) = dbW2 ∧
    (List.Pairwise (fun t u => t.created_at ≤ u.created_at) [txW2, txW1] →
      List.Pairwise (fun t u => t.created_at ≤ u.created_at)
        (list_account_transactions_backend [txW2, txW1] 1 0 100))) :=
  ⟨rfl, List.Perm.swap txW1 txW2 [],
    C9_list_window_per_enumeration dbW2 [txW2, txW1] 1 0 100 acctW1 rfl
      (List.Perm.swap txW1 txW2 [])⟩

/-- C10: for an account identifier that resolves to no account,
list_account_transactions raises a 404 — it does not return an empty
list — and mutates nothing. -/
theorem C10_list_unknown_account_not_found
    (db : DB) (aid skip limit : Nat)
    (h : findAccount db.accounts aid = none) :
    list_account_transactions db aid skip limit =
      .httpError 404 ("Account with ID " ++ toString aid ++ " not found") ∧
    list_account_transactions db aid skip limit ≠ .ok [] ∧
    applyOp db (.listTxOp aid skip limit) = db := by
  refine ⟨?_, ?_, rfl⟩
  · simp only [list_account_transactions, h]
  · simp only [list_account_transactions, h]
    intro hc
    exact ApiResult.noConfusion hc

/-- C10 witness: identifier 99 resolves to no account of the witness
database, and the listing endpoint answers 404 without mutating it. -/
theorem C10_list_unknown_account_not_found_witness :
    findAccount dbW2.accounts 99 = none ∧
    (list_account_transactions dbW2 99 0 100 =
      .httpError 404 ("Account with ID " ++ toString 99 ++ " not found") ∧
    list_account_transactions dbW2 99 0 100 ≠ .ok [] ∧
    applyOp dbW2 (.listTxOp 99 0 100) = dbW2) :=
  ⟨rfl, C10_list_unknown_account_not_found dbW2 99 0 100 rfl⟩

end RestService
